import Mathlib

/-!
Verification of the multi-priority transmission pipeline
(`io/zenoh-transport/src/common/pipeline.rs`).

The per-priority queue state (refill ring, ready ring, current slot,
byte/backoff hints, sequence-number channels) is embedded as a pure record,
and the producer/consumer operations of `StageIn`, `StageOut`,
`TransmissionPipelineProducer` and `TransmissionPipelineConsumer` are
translated into state-passing functions.  Blocking waits on the refill
signal channel are resolved by an explicit oracle (`WaitEv`): each blocking
point consumes one event saying whether the wait woke up, timed out at the
drop deadline, or failed because the channel closed.  The message codec
(an external collaborator of the pipeline) is modelled by a concrete
size-based encoder: every record pays one unit for its header, a message
occupies `size` bytes, and an encode succeeds exactly when the result fits
in the batch `mtu`.
-/

namespace Pipeline

/-- Compile-time maximum queue size (`QueueSizeConf::MAX`, re-exported in the
pipeline as `RBLEN`, the capacity of both SPSC rings).  Modelled from the
spec: the configured queue size is `≤ a compile-time maximum`. -/
def RBLEN : Nat := 16

/-- Maximum value of the 32-bit nanosecond counter (`NanoSeconds = u32`). -/
def NanoSecondsMAX : Nat := 4294967295

/-- Maximum value of `BatchSize = u16`, used by `disable` as the
maximum-bytes notification. -/
def BatchSizeMAX : Nat := 65535

/-- Abstraction of a `NetworkMessage`: its serialized size, reliability,
droppability and QoS priority field. -/
structure Msg where
  size : Nat
  is_reliable : Bool
  is_droppable : Bool
  prio : Nat
deriving DecidableEq, Repr

/-- Abstraction of a `TransportMessage`: only its serialized size matters
to the pipeline. -/
structure TMsg where
  size : Nat
deriving DecidableEq, Repr

/-- A wire record inside a serialization batch: a frame header followed by
whole messages (their sizes), a fragment carrying a slice of a message, or
a transport message. -/
inductive Record where
  | frame (rel : Bool) (sn : Nat) (prio : Nat) (payload : List Nat)
  | frag (rel : Bool) (more : Bool) (sn : Nat) (prio : Nat) (nbytes : Nat)
  | tmsg (size : Nat)
deriving DecidableEq, Repr

/-- Byte length of a record: one unit of header cost plus the payload. -/
def Record.len : Record → Nat
  | .frame _ _ _ p => 1 + p.sum
  | .frag _ _ _ _ n => 1 + n
  | .tmsg s => s

/-- A serialization batch (`WBatch`): a fixed capacity and the records
written so far. -/
structure WBatch where
  mtu : Nat
  records : List Record
deriving DecidableEq, Repr

/-- Write cursor of the batch. -/
def WBatch.len (b : WBatch) : Nat := (b.records.map Record.len).sum

/-- The `is_empty` predicate of `WBatch`. -/
def WBatch.isEmpty (b : WBatch) : Bool := b.records.isEmpty

/-- The `clear` operation of `WBatch`. -/
def WBatch.clear (b : WBatch) : WBatch := { b with records := [] }

/-- `WBatch::new`: a fresh empty batch of the configured capacity. -/
def WBatch.new (mtu : Nat) : WBatch := ⟨mtu, []⟩

/-- `BatchError` of the codec: either no current frame matches
(`NewFrame`) or the serialization does not fit (`DidntFit`). -/
inductive BatchError where
  | NewFrame
  | DidntFit
deriving DecidableEq, Repr

/-- Codec encode of a bare `NetworkMessage` into a batch: succeeds when the
last record is a frame of matching reliability and the message fits,
appending the message to that frame. -/
def WBatch.encode_msg (b : WBatch) (m : Msg) : Except BatchError WBatch :=
  match b.records.getLast? with
  | some (.frame rel sn prio payload) =>
    if rel = m.is_reliable then
      if b.len + m.size ≤ b.mtu then
        .ok { b with records := b.records.dropLast ++ [.frame rel sn prio (payload ++ [m.size])] }
      else .error .DidntFit
    else .error .NewFrame
  | _ => .error .NewFrame

/-- Codec encode of a `(frame-header, msg)` pair: opens a new frame if the
header and the message fit. -/
def WBatch.encode_frame (b : WBatch) (m : Msg) (rel : Bool) (sn prio : Nat) :
    Except BatchError WBatch :=
  if b.len + 1 + m.size ≤ b.mtu then
    .ok { b with records := b.records ++ [.frame rel sn prio [m.size]] }
  else .error .DidntFit

/-- Codec encode of a `TransportMessage`: succeeds when it fits. -/
def WBatch.encode_tmsg (b : WBatch) (m : TMsg) : Except BatchError WBatch :=
  if b.len + m.size ≤ b.mtu then
    .ok { b with records := b.records ++ [.tmsg m.size] }
  else .error .DidntFit

/-- Codec encode of a `(reader, fragment-header)` pair: needs room for the
header plus at least one payload byte, and then consumes as many of the
`remaining` scratch bytes as fit; the codec sets `more` from whether bytes
remain afterwards.  Returns the new batch and the number of consumed
bytes. -/
def WBatch.encode_fragment (b : WBatch) (rel : Bool) (sn prio remaining : Nat) :
    Option (WBatch × Nat) :=
  if b.len + 2 ≤ b.mtu then
    let k := min remaining (b.mtu - b.len - 1)
    some ({ b with records := b.records ++ [.frag rel (decide (k < remaining)) sn prio k] }, k)
  else none

/-- Boolean success of an encode attempt (`.is_ok()` in the source). -/
def encOk (r : Except BatchError WBatch) : Bool :=
  match r with
  | .ok _ => true
  | .error _ => false

/-- The sequence-number generator of a tx channel: `get` returns the next
SN and advances, `set` restores it (external `TxChannel` collaborator). -/
structure SeqNumGen where
  next : Nat
deriving DecidableEq, Repr

/-- A `TransportChannelTx`: its sequence-number generator. -/
structure TransportChannelTx where
  sn : SeqNumGen
deriving DecidableEq, Repr

/-- The per-priority backoff controller together with the shared
`backoff_flag` atomic it stores to. -/
structure Backoff where
  tslot : Nat
  retry_time : Nat
  last_bytes : Nat
  flag : Bool
deriving DecidableEq, Repr

/-- `Backoff::new`. -/
def Backoff.new (tslot : Nat) : Backoff :=
  { tslot := tslot, retry_time := 0, last_bytes := 0, flag := false }

/-- `Backoff::next`: first call sets `retry_time` to `tslot` and raises the
backoff flag; later calls double `retry_time` with `checked_mul`,
saturating at `u32::MAX` nanoseconds. -/
def Backoff.next (b : Backoff) : Backoff :=
  if b.retry_time = 0 then
    { b with retry_time := b.tslot, flag := true }
  else if b.retry_time * 2 ≤ NanoSecondsMAX then
    { b with retry_time := b.retry_time * 2 }
  else
    { b with retry_time := NanoSecondsMAX }

/-- `Backoff::reset`: zero the retry time and clear the backoff flag. -/
def Backoff.reset (b : Backoff) : Backoff :=
  { b with retry_time := 0, flag := false }

/-- The complete state of one priority level of the pipeline: the two SPSC
rings, the mutex-guarded current slot, the shared atomics (`bytes`,
`backoff_flag` inside `backoff`), the capacity-one notification channels
and the two sequence-number channels. -/
structure QueueState where
  refill : List WBatch
  ready : List WBatch
  current : Option WBatch
  bytesHint : Nat
  notifReady : Bool
  notifRefill : Bool
  backoff : Backoff
  reliable : TransportChannelTx
  best_effort : TransportChannelTx
deriving DecidableEq, Repr

/-- `tch.sn.get()`: read the next SN of the selected channel and advance
the generator. -/
def QueueState.snGet (st : QueueState) (isRel : Bool) : Nat × QueueState :=
  if isRel then
    (st.reliable.sn.next, { st with reliable := ⟨⟨st.reliable.sn.next + 1⟩⟩ })
  else
    (st.best_effort.sn.next, { st with best_effort := ⟨⟨st.best_effort.sn.next + 1⟩⟩ })

/-- `tch.sn.set(v)`: restore the SN of the selected channel. -/
def QueueState.snSet (st : QueueState) (isRel : Bool) (v : Nat) : QueueState :=
  if isRel then { st with reliable := ⟨⟨v⟩⟩ }
  else { st with best_effort := ⟨⟨v⟩⟩ }

/-- `StageInOut::move_batch`: push the batch onto the ready ring (the
source ignores an overflowing push, dropping the batch), zero the bytes
hint and signal the consumer. -/
def moveBatch (b : WBatch) (st : QueueState) : QueueState :=
  { st with
    ready := if st.ready.length < RBLEN then st.ready ++ [b] else st.ready,
    bytesHint := 0,
    notifReady := true }

/-- `StageInOut::notify`: store the bytes hint and signal the consumer
only when it is not backing off. -/
def notifyBytes (st : QueueState) (bytes : Nat) : QueueState :=
  { st with
    bytesHint := bytes,
    notifReady := st.notifReady || !st.backoff.flag }

/-- Oracle event resolving one producer wait on the refill signal:
the deadline passed before any signal, the channel closed, or the wait
woke up (possibly spuriously). -/
inductive WaitEv where
  | timeout
  | closed
  | woke
deriving DecidableEq, Repr

/-- Result of the batch-acquisition loop `zgetbatch_rets!`: a batch was
obtained, the wait failed (the caller restores the SN and returns
`false`), or the oracle ran out of events while the producer is still
blocked. -/
inductive GetRes where
  | got (b : WBatch) (st : QueueState) (evs : List WaitEv)
  | failed (st : QueueState) (evs : List WaitEv)
  | stuck (st : QueueState)
deriving DecidableEq, Repr

/-- The `zgetbatch_rets!` loop: take the current batch, else pull (and
clear) a batch from the refill ring, else wait on the refill signal.
With a deadline and outside fragmentation (`dl && !fragment`) the wait is
`wait_deadline`, which fails on timeout or closure; otherwise the wait is
the indefinite `wait`, which fails only on closure. -/
def zgetbatch (dl fragment : Bool) : QueueState → List WaitEv → GetRes
  | st, evs =>
    match st.current with
    | some b => .got b { st with current := none } evs
    | none =>
      match st.refill with
      | b :: rest => .got b.clear { st with refill := rest } evs
      | [] =>
        match evs with
        | [] => .stuck st
        | ev :: evs' =>
          if dl && !fragment then
            match ev with
            | .woke => zgetbatch dl fragment st evs'
            | _ => .failed st evs'
          else
            match ev with
            | .closed => .failed st evs'
            | _ => zgetbatch dl fragment st evs'

/-- Result of a producer push: the returned boolean with the final state,
or a still-blocked producer whose wait oracle ran out. -/
inductive PushOut where
  | ret (b : Bool) (st : QueueState)
  | stuck (st : QueueState)
deriving DecidableEq, Repr

/-- The fragmentation loop of `push_network_message` (step 5 of the spec's
algorithm): while scratch bytes remain, acquire a batch (treated as
non-droppable), encode a fragment, advance the fragment SN from the
channel and hand the batch off; on a fragment-encode failure restore the
SN to the series SN, put the batch back into the current slot, and stop —
the function still returns `true`.  A successful fragment encode consumes
at least one byte, so the initial `remaining` bounds the number of
iterations and doubles as structural fuel (`fuel` starts equal to
`remaining` and the fuel-exhausted branch is unreachable). -/
def fragLoop (dl isRel : Bool) (sn0 prio : Nat) :
    Nat → Nat → Nat → QueueState → List WaitEv → PushOut
  | _, 0, _, st, _ => .ret true st
  | 0, _ + 1, _, st, _ => .stuck st
  | fuel + 1, remaining + 1, fsn, st, evs =>
    match zgetbatch dl true st evs with
    | .stuck st' => .stuck st'
    | .failed st' _ => .ret false (st'.snSet isRel sn0)
    | .got b st' evs' =>
      match b.encode_fragment true fsn prio (remaining + 1) with
      | some (b', k) =>
        let g := st'.snGet isRel
        fragLoop dl isRel sn0 prio fuel (remaining + 1 - k) g.1 (moveBatch b' g.2) evs'
      | none => .ret true { st'.snSet isRel sn0 with current := some b }

/-- The retry of the `(frame-header, msg)` encode on a fully empty batch
(line "Attempt a second serialization on fully empty batch"), falling into
fragmentation when it still fails. -/
def pushAttempt2 (m : Msg) (prio : Nat) (dl : Bool) (sn : Nat)
    (b : WBatch) (st : QueueState) (evs : List WaitEv) : PushOut :=
  match b.encode_frame m true sn prio with
  | .ok b' => .ret true (moveBatch b' st)
  | .error _ =>
    fragLoop dl m.is_reliable sn prio m.size m.size sn { st with current := some b } evs

/-- Step 4 of the algorithm: if the batch holding the failed encode is
non-empty, hand it off and acquire a fresh batch (restoring the SN if that
acquisition fails), then retry on the empty batch. -/
def pushRetry (m : Msg) (prio : Nat) (dl : Bool) (sn : Nat)
    (batch : WBatch) (st : QueueState) (evs : List WaitEv) : PushOut :=
  if batch.isEmpty then pushAttempt2 m prio dl sn batch st evs
  else
    let st' := moveBatch batch st
    match zgetbatch dl false st' evs with
    | .stuck s => .stuck s
    | .failed s _ => .ret false (s.snSet m.is_reliable sn)
    | .got b2 s evs' => pushAttempt2 m prio dl sn b2 s evs'

/-- `StageIn::push_network_message`.  `dl` is whether a drop deadline was
computed (the message is droppable); the deadline instant itself is left
to the wait oracle. -/
def StageIn.push_network_message (st : QueueState) (m : Msg) (prio : Nat)
    (dl : Bool) (evs : List WaitEv) : PushOut :=
  match zgetbatch dl false st evs with
  | .stuck s => .stuck s
  | .failed s _ => .ret false s
  | .got batch st1 evs1 =>
    match batch.encode_msg m with
    | .ok b' => .ret true (moveBatch b' st1)
    | .error e =>
      let g := st1.snGet m.is_reliable
      match e with
      | .NewFrame =>
        match batch.encode_frame m true g.1 prio with
        | .ok b' => .ret true (moveBatch b' g.2)
        | .error _ => pushRetry m prio dl g.1 batch g.2 evs1
      | .DidntFit => pushRetry m prio dl g.1 batch g.2 evs1

/-- `StageIn::push_transport_message`.  On success the batch stays in the
current slot and the consumer is notified of its length; on an encode
failure the batch is handed off when non-empty, one more encode is
attempted on a fresh batch, and that final batch is dropped on the floor
by the source (only its success boolean is returned). -/
def StageIn.push_transport_message (st : QueueState) (m : TMsg)
    (evs : List WaitEv) : PushOut :=
  match zgetbatch false false st evs with
  | .stuck s => .stuck s
  | .failed s _ => .ret false s
  | .got batch st1 evs1 =>
    match batch.encode_tmsg m with
    | .ok b' => .ret true (notifyBytes { st1 with current := some b' } b'.len)
    | .error _ =>
      if batch.isEmpty then
        .ret (encOk (batch.encode_tmsg m)) st1
      else
        let st2 := moveBatch batch st1
        match zgetbatch false false st2 evs1 with
        | .stuck s => .stuck s
        | .failed s _ => .ret false s
        | .got b2 s _ => .ret (encOk (b2.encode_tmsg m)) s

/-- Result of `StageOutIn::try_pull`: a batch, nothing, or an instruction
to back off for the given number of nanoseconds. -/
inductive Pull where
  | got (b : WBatch) (st : QueueState)
  | nothing (st : QueueState)
  | backoff (ns : Nat) (st : QueueState)
deriving DecidableEq, Repr

/-- `StageOutIn::try_pull_deep`: remember the bytes hint; when it did not
change since the previous call and the non-blocking lock on the current
slot succeeds (`lockOk` is the try-lock oracle), re-check the ready ring
and then take whatever the current slot holds; otherwise advance the
backoff controller and report its retry time. -/
def StageOutIn.try_pull_deep (st : QueueState) (lockOk : Bool) : Pull :=
  let newBytes := st.bytesHint
  let oldBytes := st.backoff.last_bytes
  let st1 : QueueState := { st with backoff := { st.backoff with last_bytes := newBytes } }
  if newBytes = oldBytes && lockOk then
    match st1.ready with
    | b :: rest => .got b { st1 with ready := rest }
    | [] =>
      match st1.current with
      | some b => .got b { st1 with current := none }
      | none => .nothing st1
  else
    let bo := st1.backoff.next
    .backoff bo.retry_time { st1 with backoff := bo }

/-- `StageOutIn::try_pull`: pop the ready ring, falling back to the deep
pull. -/
def StageOutIn.try_pull (st : QueueState) (lockOk : Bool) : Pull :=
  match st.ready with
  | b :: rest => .got b { st with ready := rest }
  | [] => StageOutIn.try_pull_deep st lockOk

/-- `StageOut::drain` (with the current-slot guard held by the caller):
everything in the ready ring followed by the current batch, leaving the
refill ring untouched. -/
def StageOut.drain (q : QueueState) : List WBatch × QueueState :=
  (q.ready ++ q.current.toList, { q with ready := [], current := none })

/-- `StageOutRefill::refill`: return a consumed batch to the pool and
signal a waiting producer; the source asserts that the ring push succeeds,
so an overflowing push is modelled as `none` (a panic). -/
def StageOutRefill.refill (q : QueueState) (b : WBatch) : Option QueueState :=
  if q.refill.length < RBLEN then
    some { q with refill := q.refill ++ [b], notifRefill := true }
  else none

/-- The whole pipeline: the shared active flag and one queue per
priority, index 0 being the highest priority. -/
structure Pipe where
  active : Bool
  queues : List QueueState
deriving DecidableEq, Repr

/-- Result of one scan of the consumer's pull loop over all priorities. -/
inductive ScanRes where
  | found (b : WBatch) (prio : Nat) (qs : List QueueState)
  | empty (bo : Nat) (qs : List QueueState)
deriving DecidableEq, Repr

/-- One iteration of the consumer's pull loop: try each priority in index
order, return the first batch found, and otherwise accumulate the minimum
backoff duration (starting from `NanoSeconds::MAX`). -/
def pullScan (locks : Nat → Bool) : Nat → Nat → List QueueState → ScanRes
  | _, bo, [] => .empty bo []
  | i, bo, q :: qs =>
    match StageOutIn.try_pull q (locks i) with
    | .got b q' => .found b i (q' :: qs)
    | .nothing q' =>
      match pullScan locks (i + 1) bo qs with
      | .found b j qs' => .found b j (q' :: qs')
      | .empty bo' qs' => .empty bo' (q' :: qs')
    | .backoff v q' =>
      match pullScan locks (i + 1) (min v bo) qs with
      | .found b j qs' => .found b j (q' :: qs')
      | .empty bo' qs' => .empty bo' (q' :: qs')

/-- Oracle event resolving the consumer's timed wait on the ready
notification channel after an empty scan. -/
inductive ConsEv where
  | notif
  | timeoutEv
  | closed
deriving DecidableEq, Repr

/-- Result of `TransmissionPipelineConsumer::pull`: the returned optional
`(batch, priority)` with the final queue states, or a consumer still
waiting after the oracle ran out of events. -/
inductive PullOut where
  | ret (r : Option (WBatch × Nat)) (qs : List QueueState)
  | stuck (qs : List QueueState)
deriving DecidableEq, Repr

/-- The waiting loop of `TransmissionPipelineConsumer::pull`: while the
active flag holds, scan all priorities; on an empty scan wait for a ready
notification or the backoff timeout (closure of the notification channel
ends the loop with `None`). -/
def pullLoop (locks : Nat → Bool) (active : Bool) :
    List ConsEv → List QueueState → PullOut
  | [], qs =>
    if active then
      match pullScan locks 0 NanoSecondsMAX qs with
      | .found b i qs' => .ret (some (b, i)) qs'
      | .empty _ qs' => .stuck qs'
    else .ret none qs
  | ev :: evs', qs =>
    if active then
      match pullScan locks 0 NanoSecondsMAX qs with
      | .found b i qs' => .ret (some (b, i)) qs'
      | .empty _ qs' =>
        match ev with
        | .closed => .ret none qs'
        | .notif => pullLoop locks active evs' qs'
        | .timeoutEv => pullLoop locks active evs' qs'
    else .ret none qs

/-- Reset of one priority's backoff controller, done by `pull` on entry. -/
def resetBackoff (q : QueueState) : QueueState :=
  { q with backoff := q.backoff.reset }

/-- `TransmissionPipelineConsumer::pull`: reset every backoff, then run
the waiting loop. -/
def TransmissionPipelineConsumer.pull (p : Pipe) (locks : Nat → Bool)
    (evs : List ConsEv) : PullOut :=
  pullLoop locks p.active evs (p.queues.map resetBackoff)

/-- `TransmissionPipelineConsumer::refill`. -/
def TransmissionPipelineConsumer.refill (p : Pipe) (b : WBatch) (prio : Nat) :
    Option Pipe :=
  match p.queues.get? prio with
  | none => none
  | some q =>
    match StageOutRefill.refill q b with
    | none => none
    | some q' => some { p with queues := p.queues.set prio q' }

/-- The per-priority collection loop of the consumer's `drain`:
each priority's `StageOut::drain` result tagged with its index. -/
def drainGo : Nat → List QueueState → List (WBatch × Nat) × List QueueState
  | _, [] => ([], [])
  | i, q :: qs =>
    let d := StageOut.drain q
    let rest := drainGo (i + 1) qs
    (d.1.map (fun b => (b, i)) ++ rest.1, d.2 :: rest.2)

/-- `TransmissionPipelineConsumer::drain`: with every current slot held,
drain each priority's ready ring plus current slot in index order. -/
def TransmissionPipelineConsumer.drain (p : Pipe) :
    List (WBatch × Nat) × Pipe :=
  let d := drainGo 0 p.queues
  (d.1, { p with queues := d.2 })

/-- Modelled from the spec: the external `Priority` type of the protocol
crate has `Priority::NUM = 8` levels (index 0, Control, the highest) and
its `Default` is the `Data` priority at index 5. -/
def PriorityNUM : Nat := 8

/-- Modelled from the spec: index of `Priority::default()` (= `Data`). -/
def PriorityDefaultIdx : Nat := 5

/-- Result of a producer-handle push: the returned boolean with the new
pipeline, or a blocked producer. -/
inductive ProdOut where
  | ret (b : Bool) (p : Pipe)
  | stuck (p : Pipe)
deriving DecidableEq, Repr

/-- Replace one priority's queue state. -/
def Pipe.setQueue (p : Pipe) (i : Nat) (q : QueueState) : Pipe :=
  { p with queues := p.queues.set i q }

/-- `TransmissionPipelineProducer::push_network_message`: with more than
one queue the message's own QoS priority selects the queue, otherwise
index 0 with the default priority; a drop deadline exists iff the message
is droppable.  Indexing a missing queue (a panic in the source) is
`none`. -/
def TransmissionPipelineProducer.push_network_message (p : Pipe) (m : Msg)
    (evs : List WaitEv) : Option ProdOut :=
  let ip : Nat × Nat :=
    if 1 < p.queues.length then (m.prio, m.prio) else (0, PriorityDefaultIdx)
  match p.queues.get? ip.1 with
  | none => none
  | some q =>
    match StageIn.push_network_message q m ip.2 m.is_droppable evs with
    | .ret b q' => some (.ret b (p.setQueue ip.1 q'))
    | .stuck q' => some (.stuck (p.setQueue ip.1 q'))

/-- `TransmissionPipelineProducer::push_transport_message`: caller-supplied
priority, index 0 when the pipeline has a single queue. -/
def TransmissionPipelineProducer.push_transport_message (p : Pipe) (m : TMsg)
    (prio : Nat) (evs : List WaitEv) : Option ProdOut :=
  let idx := if 1 < p.queues.length then prio else 0
  match p.queues.get? idx with
  | none => none
  | some q =>
    match StageIn.push_transport_message q m evs with
    | .ret b q' => some (.ret b (p.setQueue idx q'))
    | .stuck q' => some (.stuck (p.setQueue idx q'))

/-- `TransmissionPipelineProducer::disable`: store `active = false`, then
with every StageIn mutex held in index order issue a maximum-bytes
notification on each priority's ready signal. -/
def TransmissionPipelineProducer.disable (p : Pipe) : Pipe :=
  { active := false,
    queues := p.queues.map (fun q => notifyBytes q BatchSizeMAX) }

/-- The pipeline configuration (`wait_before_drop` is real time and enters
the model only through the wait oracle). -/
structure TransmissionPipelineConf where
  mtu : Nat
  queue_size : List Nat
  backoff : Nat
deriving DecidableEq, Repr

/-- One freshly constructed priority queue: `num` empty batches in the
refill ring and the cloned tx channels. -/
def mkQueue (mtu tslot num rsn bsn : Nat) : QueueState :=
  { refill := List.replicate num (WBatch.new mtu),
    ready := [],
    current := none,
    bytesHint := 0,
    notifReady := false,
    notifRefill := false,
    backoff := Backoff.new tslot,
    reliable := ⟨⟨rsn⟩⟩,
    best_effort := ⟨⟨bsn⟩⟩ }

/-- `TransmissionPipeline::make`: with a single-priority slice only one
queue is built, sized by the entry of `queue_size` at the default
priority's index; each queue's size must be non-zero and at most `RBLEN`
(the source asserts this, modelled as `none`). -/
def TransmissionPipeline.make (conf : TransmissionPipelineConf)
    (priority : List (Nat × Nat)) : Option Pipe :=
  let sizes :=
    if priority.length = 1 then [conf.queue_size.getD PriorityDefaultIdx 0]
    else conf.queue_size
  if sizes.all (fun n => decide (n ≠ 0) && decide (n ≤ RBLEN)) then
    some { active := true,
           queues := (sizes.zip priority).map
             (fun sp => mkQueue conf.mtu conf.backoff sp.1 sp.2.1 sp.2.2) }
  else none

/-- Number of batches a priority queue currently owns (consumer-held
batches live in the return values of `pull`/`drain`). -/
def QueueState.totalBatches (q : QueueState) : Nat :=
  q.refill.length + q.ready.length + (match q.current with | some _ => 1 | none => 0)

/-- Total batches of one priority of a pipeline. -/
def Pipe.totalBatches (p : Pipe) (i : Nat) : Nat :=
  match p.queues.get? i with
  | some q => q.totalBatches
  | none => 0

/-! Concrete scenarios used by the claim theorems. -/

/-- Configuration with `mtu = 10` and queue size 2 at the default
priority's index (index 5), 1 everywhere else. -/
def exConf : TransmissionPipelineConf :=
  { mtu := 10, queue_size := [1, 1, 1, 1, 1, 2, 1, 1], backoff := 100 }

/-- One `push_transport_message` of a 6-byte transport message, kept only
when it reports success. -/
def exPushT (p : Pipe) : Option Pipe :=
  match TransmissionPipelineProducer.push_transport_message p ⟨6⟩ 0 [] with
  | some (.ret true p') => some p'
  | _ => none

/-- The C1 scenario: build a single-priority pipeline with two batches,
then push two 6-byte transport messages.  The second push takes the
non-empty current batch, fails to encode (6 + 6 > 10), hands the batch
off, encodes on the last pool batch — and drops that batch on the floor. -/
def c1run : Option Pipe :=
  (TransmissionPipeline.make exConf [(0, 0)]).bind fun p => (exPushT p).bind exPushT

/-- A single-priority queue with one 1-byte batch: any message must be
fragmented, and even a fragment header does not fit. -/
def exQfrag : QueueState := mkQueue 1 100 1 0 0

/-- A 3-byte reliable non-droppable message for the tiny-batch queue. -/
def exMsgFrag : Msg := ⟨3, true, false, 0⟩

/-- State after `push_network_message exQfrag exMsgFrag`: the fragment
encode failed on the empty batch, the SN was restored, and the (empty)
batch went back to the current slot. -/
def exQfragAfter : QueueState :=
  { refill := [], ready := [], current := some (WBatch.new 1),
    bytesHint := 0, notifReady := false, notifRefill := false,
    backoff := Backoff.new 100, reliable := ⟨⟨0⟩⟩, best_effort := ⟨⟨0⟩⟩ }

/-- A batch holding an open reliable frame with a 7-byte message
(length 8 of 10). -/
def exB3 : WBatch := ⟨10, [Record.frame true 7 0 [7]]⟩

/-- Queue for the C3 scenario: `exB3` sits in the current slot, the pool
is empty, and the SN generators are parameterized. -/
def exQ3 (v w : Nat) : QueueState :=
  { refill := [], ready := [], current := some exB3,
    bytesHint := 8, notifReady := false, notifRefill := false,
    backoff := Backoff.new 100, reliable := ⟨⟨v⟩⟩, best_effort := ⟨⟨w⟩⟩ }

/-- A 5-byte best-effort droppable message: its first encode yields
`NewFrame` (the open frame is reliable), the frame encode does not fit
(8 + 1 + 5 > 10), so the non-empty batch is handed off and a fresh batch
is acquired on the step-4 path. -/
def exMsg3 : Msg := ⟨5, false, true, 0⟩

/-- State after the C3 push: the old batch was handed to the ready ring,
the message was dropped at the deadline, and the best-effort SN was
restored to `w`. -/
def exQ3After (v w : Nat) : QueueState :=
  { refill := [], ready := [exB3], current := none,
    bytesHint := 0, notifReady := true, notifRefill := false,
    backoff := Backoff.new 100, reliable := ⟨⟨v⟩⟩, best_effort := ⟨⟨w⟩⟩ }

/-- Queue for the mid-fragmentation part of C3: one 3-byte batch, so a
5-byte message needs three fragments but only one batch exists. -/
def exQ3b (v : Nat) : QueueState := mkQueue 3 100 1 v 0

/-- State in which the producer of the C3 fragmentation scenario is still
blocked: the first fragment (2 bytes, SN `v`) was handed off and the
producer waits for a refill, ignoring its drop deadline. -/
def exQ3bStuck (v : Nat) : QueueState :=
  { refill := [], ready := [⟨3, [Record.frag true true v 0 2]⟩], current := none,
    bytesHint := 0, notifReady := true, notifRefill := false,
    backoff := Backoff.new 100, reliable := ⟨⟨v + 2⟩⟩, best_effort := ⟨⟨0⟩⟩ }

/-! Claim theorems. -/

/-- C1: the claim states that every operation conserves the number of
batches of a priority (`|refill| + |ready| + current + in-flight =
queue_size`), and in particular that the `push_transport_message` path
that encodes on a second batch must put that batch somewhere.  The code
violates this: after handing off a full current batch,
`push_transport_message` encodes the transport message on a fresh pool
batch and returns only the success boolean, never storing the batch
anywhere — the batch (and the message in it) leaks.  Starting from a
freshly made pipeline owning 2 batches, two 6-byte transport pushes leave
the pipeline owning only 1 batch, with no batch in flight at the
consumer. -/
theorem c1_push_transport_loses_batch :
    (TransmissionPipeline.make exConf [(0, 0)]).map (fun p => p.totalBatches 0) = some 2 ∧
    c1run.map (fun p => p.totalBatches 0) = some 1 := by
  decide

/-- C2 (counterexample): `push_network_message` is claimed to return
`false` whenever the message is dropped, in particular when a fragment
encode fails on an empty batch mid-series.  On a queue whose only batch
has `mtu = 1`, a 3-byte message reaches fragmentation, the fragment encode
fails on the empty batch, the message is lost (no batch ever reaches the
ready ring and the current slot holds an empty batch) — and the function
returns `true`. -/
theorem c2_counterexample :
    StageIn.push_network_message exQfrag exMsgFrag 0 false [] = .ret true exQfragAfter ∧
    exQfragAfter.ready = [] ∧
    exQfragAfter.current = some (WBatch.new 1) ∧
    (WBatch.new 1).isEmpty = true := by
  decide

/-- C3 (counterexample): the claim states that once the frame encode fails
on a non-empty batch, the fresh-batch acquisition treats the message as
non-droppable, blocking indefinitely even for a droppable message with a
deadline.  The code instead passes `fragment = false` at this call site,
so the droppable message is dropped at the deadline: with an empty pool
and a `timeout` wait event, the push returns `false` (instead of staying
blocked as the claim requires) — though the SN is indeed restored. -/
theorem c3_counterexample :
    StageIn.push_network_message (exQ3 4 9) exMsg3 0 true [WaitEv.timeout] =
      .ret false (exQ3After 4 9) := by
  decide

/-- C3 (amended): the step-4 acquisition follows the same waiting rules as
step 1 — a droppable message with a deadline is dropped on deadline
expiry, with the SN restored to the value read in step 3 (first conjunct,
for every pair of channel SNs) — and only the fragmentation loop treats
the message as non-droppable: mid-fragmentation, a deadline timeout leaves
the producer blocked instead of dropping (second conjunct). -/
theorem c3_amended (v w : Nat) :
    StageIn.push_network_message (exQ3 v w) exMsg3 0 true [WaitEv.timeout] =
      .ret false (exQ3After v w) ∧
    StageIn.push_network_message (exQ3b v) ⟨5, true, true, 0⟩ 0 true [WaitEv.timeout] =
      .stuck (exQ3bStuck v) := by
  constructor <;> rfl

/-- C4: a droppable message with a deadline that finds no current batch
and an empty refill ring, and whose refill wait times out at the deadline,
is dropped: `push_network_message` returns `false` and the state —
including both SN channels — is returned exactly as it was. -/
theorem c4_deadline_timeout_is_pure_drop (st : QueueState) (m : Msg) (prio : Nat)
    (evs : List WaitEv) (h1 : st.current = none) (h2 : st.refill = []) :
    StageIn.push_network_message st m prio true (WaitEv.timeout :: evs) =
      .ret false st := by
  unfold StageIn.push_network_message
  rw [zgetbatch]
  simp [h1, h2]
  all_goals simp

/-- C4 witness: a concrete queue whose only batch sits in the ready ring. -/
theorem c4_witness :
    StageIn.push_network_message
      { mkQueue 10 100 0 0 0 with ready := [WBatch.new 10] }
      ⟨3, true, true, 0⟩ 0 true [WaitEv.timeout] =
      .ret false { mkQueue 10 100 0 0 0 with ready := [WBatch.new 10] } :=
  c4_deadline_timeout_is_pure_drop _ _ 0 [] rfl rfl

/-- C5 (counterexample): the claim adds that every batch returned by
`drain` is non-empty.  After the aborted fragmentation of the C2 scenario
the current slot holds an *empty* batch, and `drain` returns it. -/
theorem c5_counterexample :
    StageIn.push_network_message exQfrag exMsgFrag 0 false [] = .ret true exQfragAfter ∧
    TransmissionPipelineConsumer.drain { active := true, queues := [exQfragAfter] } =
      ([(WBatch.new 1, 0)],
       { active := true, queues := [{ exQfragAfter with current := none }] }) ∧
    (WBatch.new 1).isEmpty = true := by
  decide

/-- Spec-side description of `drain`: for each priority in index order,
the batches of its ready ring followed by the current batch, tagged with
the priority index. -/
def drainSpecList : Nat → List QueueState → List (WBatch × Nat)
  | _, [] => []
  | i, q :: qs =>
    (q.ready ++ q.current.toList).map (fun b => (b, i)) ++ drainSpecList (i + 1) qs

/-- The collection loop of `drain` refines the spec-side description and
empties exactly the ready ring and current slot of every queue. -/
theorem drainGo_eq (i : Nat) (qs : List QueueState) :
    drainGo i qs =
      (drainSpecList i qs, qs.map (fun q => { q with ready := [], current := none })) := by
  induction qs generalizing i with
  | nil => rfl
  | cons q qs ih =>
    simp [drainGo, drainSpecList, StageOut.drain, ih]

/-- C5 (amended): `drain()` returns exactly the batches of each priority's
ready ring followed by its current batch (in priority index order), and
leaves every queue otherwise untouched — in particular all pool batches
stay in the refill ring; the returned batches are not necessarily
non-empty (an aborted fragmentation leaves an empty batch in the current
slot). -/
theorem c5_amended (p : Pipe) :
    TransmissionPipelineConsumer.drain p =
      (drainSpecList 0 p.queues,
       { p with queues := p.queues.map (fun q => { q with ready := [], current := none }) }) := by
  unfold TransmissionPipelineConsumer.drain
  rw [drainGo_eq]

/-- `next` never changes the configured slot duration. -/
theorem Backoff.next_tslot (c : Backoff) : c.next.tslot = c.tslot := by
  unfold Backoff.next
  split
  · rfl
  · split <;> rfl

/-- The retry time after `next`: `tslot` from zero, otherwise doubled with
saturation at `u32::MAX`. -/
theorem Backoff.next_retry (c : Backoff) :
    c.next.retry_time =
      if c.retry_time = 0 then c.tslot else min (c.retry_time * 2) NanoSecondsMAX := by
  unfold Backoff.next
  split
  · next h => simp [h]
  · next h =>
    split
    · next h2 => simp [h, Nat.min_eq_left h2]
    · next h2 => simp [h, Nat.min_eq_right (le_of_not_le h2)]

/-- Iterating `next` preserves the slot duration. -/
theorem Backoff.iterate_next_tslot (n : Nat) (c : Backoff) :
    (Backoff.next^[n] c).tslot = c.tslot := by
  induction n generalizing c with
  | zero => rfl
  | succ n ih => rw [Function.iterate_succ_apply, ih, Backoff.next_tslot]

/-- Saturating a value at a bound and then saturated-doubling agrees with
saturated-doubling the value directly. -/
theorem sat_double (a M : Nat) : min (min a M * 2) M = min (a * 2) M := by
  rcases Nat.le_total a M with h | h
  · rw [Nat.min_eq_left h]
  · rw [Nat.min_eq_right h]
    omega

/-- Iterated saturated doubling after a reset: `k + 1` calls to `next`
starting from a zero retry time produce `min (tslot * 2 ^ k, u32::MAX)`. -/
theorem Backoff.iterate_next_retry (k : Nat) (c : Backoff)
    (ht : c.tslot ≤ NanoSecondsMAX) (h0 : c.retry_time = 0) :
    (Backoff.next^[k + 1] c).retry_time = min (c.tslot * 2 ^ k) NanoSecondsMAX := by
  induction k with
  | zero =>
    simp [Backoff.next_retry, h0, Nat.min_eq_left ht]
  | succ k ih =>
    rw [Function.iterate_succ_apply', Backoff.next_retry, ih,
      Backoff.iterate_next_tslot]
    by_cases hc : c.tslot = 0
    · simp [hc]
    · rw [if_neg (by
        have h1 : 0 < c.tslot * 2 ^ k := by positivity
        have h2 : (0 : Nat) < NanoSecondsMAX := by norm_num [NanoSecondsMAX]
        omega)]
      rw [sat_double, pow_succ, ← Nat.mul_assoc]

/-- C7: the backoff controller starts with a zero retry time; `next` on a
zero retry time sets it to `tslot` and raises the backoff flag; `next` on
a non-zero retry time doubles it, saturating at the 32-bit nanosecond
maximum, and leaves the flag alone; `reset` zeroes the retry time and
clears the flag; and after a reset followed by `k + 1` calls to `next` the
retry time is `min (tslot * 2 ^ k) u32::MAX`. -/
theorem c7_backoff_controller (b : Backoff) (t k : Nat)
    (ht : b.tslot ≤ NanoSecondsMAX) :
    (Backoff.new t).retry_time = 0 ∧
    (Backoff.new t).flag = false ∧
    (b.retry_time = 0 → b.next = { b with retry_time := b.tslot, flag := true }) ∧
    (b.retry_time ≠ 0 →
      b.next = { b with retry_time := min (b.retry_time * 2) NanoSecondsMAX }) ∧
    b.reset = { b with retry_time := 0, flag := false } ∧
    (Backoff.next^[k + 1] b.reset).retry_time = min (b.tslot * 2 ^ k) NanoSecondsMAX := by
  refine ⟨rfl, rfl, ?_, ?_, rfl, ?_⟩
  · intro h
    unfold Backoff.next
    rw [if_pos h]
  · intro h
    unfold Backoff.next
    rw [if_neg h]
    split
    · next h2 => rw [Nat.min_eq_left h2]
    · next h2 => rw [Nat.min_eq_right (le_of_not_le h2)]
  · exact Backoff.iterate_next_retry k b.reset ht rfl

/-- C7 witness: a controller with `tslot = 100`; after a reset and four
calls to `next` the retry time is `min (100 * 2 ^ 3) u32::MAX = 800`, and
a first `next` sets `tslot` and the flag. -/
theorem c7_witness :
    (Backoff.new 100).retry_time = 0 ∧
    ((Backoff.new 100).next = { Backoff.new 100 with retry_time := 100, flag := true }) ∧
    (Backoff.next^[4] (Backoff.new 100).reset).retry_time = min (100 * 2 ^ 3) NanoSecondsMAX := by
  have h := c7_backoff_controller (Backoff.new 100) 100 3 (by norm_num [Backoff.new, NanoSecondsMAX])
  exact ⟨h.1, h.2.2.1 rfl, h.2.2.2.2.2⟩

/-- C9: `disable()` stores `active = false` and issues a maximum-bytes
notification on the ready signal of every priority (in index order, with
every StageIn mutex held); afterwards every `pull()` call observes the
cleared active flag and returns `None` at its first loop check, for every
try-lock oracle and every wait oracle. -/
theorem c9_disable_stops_pull (p : Pipe) (locks : Nat → Bool) (evs : List ConsEv) :
    (TransmissionPipelineProducer.disable p).active = false ∧
    (TransmissionPipelineProducer.disable p).queues =
      p.queues.map (fun q => notifyBytes q BatchSizeMAX) ∧
    TransmissionPipelineConsumer.pull (TransmissionPipelineProducer.disable p) locks evs =
      .ret none ((TransmissionPipelineProducer.disable p).queues.map resetBackoff) := by
  refine ⟨rfl, rfl, ?_⟩
  rw [TransmissionPipelineConsumer.pull]
  cases evs <;> simp [pullLoop, TransmissionPipelineProducer.disable]

/-- C8: `try_pull` first pops the ready ring (first conjunct); with an
empty ready ring, an unchanged bytes hint and a successful try-lock it
re-checks the ready ring and then takes whatever the current slot holds —
`Some` of the batch, or `None` for an empty slot (second conjunct); if the
hint changed or the try-lock failed it advances the backoff controller and
returns `Backoff(retry_time)` (third conjunct).  In every deep path the
controller's `last_bytes` is updated to the hint just read. -/
theorem c8_try_pull (st : QueueState) (lockOk : Bool) :
    (∀ b rest, st.ready = b :: rest →
      StageOutIn.try_pull st lockOk = .got b { st with ready := rest }) ∧
    (st.ready = [] → st.bytesHint = st.backoff.last_bytes → lockOk = true →
      (∀ b, st.current = some b →
        StageOutIn.try_pull st lockOk =
          .got b { st with
                   backoff := { st.backoff with last_bytes := st.bytesHint },
                   current := none }) ∧
      (st.current = none →
        StageOutIn.try_pull st lockOk =
          .nothing { st with
                     backoff := { st.backoff with last_bytes := st.bytesHint } })) ∧
    (st.ready = [] → (st.bytesHint ≠ st.backoff.last_bytes ∨ lockOk = false) →
      StageOutIn.try_pull st lockOk =
        .backoff ({ st.backoff with last_bytes := st.bytesHint }).next.retry_time
          { st with backoff := ({ st.backoff with last_bytes := st.bytesHint }).next }) := by
  refine ⟨?_, ?_, ?_⟩
  · intro b rest h
    unfold StageOutIn.try_pull
    rw [h]
  · intro h hb hl
    constructor
    · intro b hc
      unfold StageOutIn.try_pull StageOutIn.try_pull_deep
      rw [h]
      simp [hb, hl, hc]
    · intro hc
      unfold StageOutIn.try_pull StageOutIn.try_pull_deep
      rw [h]
      simp [hb, hl, hc]
  · intro h hbl
    unfold StageOutIn.try_pull StageOutIn.try_pull_deep
    rw [h]
    rcases hbl with hb | hl
    · simp [hb]
    · simp [hl]

/-- C8 witness: the three paths at concrete queues — a ready batch is
popped; with an unchanged hint and a successful lock the current batch is
taken; with a changed hint the result is a backoff of the slot time. -/
theorem c8_witness :
    StageOutIn.try_pull { mkQueue 10 100 0 0 0 with ready := [WBatch.new 10] } true =
      .got (WBatch.new 10) (mkQueue 10 100 0 0 0) ∧
    StageOutIn.try_pull { mkQueue 10 100 0 0 0 with current := some (WBatch.new 10) } true =
      .got (WBatch.new 10) (mkQueue 10 100 0 0 0) ∧
    StageOutIn.try_pull { mkQueue 10 100 0 0 0 with bytesHint := 7 } true =
      .backoff 100
        { mkQueue 10 100 0 0 0 with
          bytesHint := 7,
          backoff := { Backoff.new 100 with last_bytes := 7, retry_time := 100, flag := true } } := by
  refine ⟨?_, ?_, ?_⟩
  · exact (c8_try_pull _ true).1 (WBatch.new 10) [] rfl
  · exact ((c8_try_pull _ true).2.1 rfl rfl rfl).1 (WBatch.new 10) rfl
  · exact (c8_try_pull { mkQueue 10 100 0 0 0 with bytesHint := 7 } true).2.2 rfl
      (Or.inl (by decide))

/-- The backoff durations reported by `try_pull` across a priority scan
starting at index `i` (spec-side description of the `Backoff(ns)` values
seen by the pull loop). -/
def reportedBackoffs (locks : Nat → Bool) : Nat → List QueueState → List Nat
  | _, [] => []
  | i, q :: qs =>
    match StageOutIn.try_pull q (locks i) with
    | .backoff v _ => v :: reportedBackoffs locks (i + 1) qs
    | _ => reportedBackoffs locks (i + 1) qs

/-- An empty scan accumulates exactly the minimum of the reported backoff
durations into its initial accumulator. -/
theorem pullScan_empty_bo (locks : Nat → Bool) :
    ∀ (qs : List QueueState) (i bo0 bo : Nat) (qs' : List QueueState),
      pullScan locks i bo0 qs = .empty bo qs' →
      bo = (reportedBackoffs locks i qs).foldl min bo0 := by
  intro qs
  induction qs with
  | nil =>
    intro i bo0 bo qs' h
    simp [pullScan] at h
    simp [reportedBackoffs, h]
  | cons q qs ih =>
    intro i bo0 bo qs' h
    rw [pullScan] at h
    split at h
    · exact absurd h (by simp)
    · next q1 htp =>
      split at h
      · exact absurd h (by simp)
      · next bo2 qs2 hrec =>
        simp only [ScanRes.empty.injEq] at h
        rw [reportedBackoffs, htp, ← h.1]
        exact ih (i + 1) bo0 bo2 qs2 hrec
    · next v q1 htp =>
      split at h
      · exact absurd h (by simp)
      · next bo2 qs2 hrec =>
        simp only [ScanRes.empty.injEq] at h
        rw [reportedBackoffs, htp, List.foldl_cons, Nat.min_comm bo0 v, ← h.1]
        exact ih (i + 1) (min v bo0) bo2 qs2 hrec

/-- C6: the pull loop scans priorities in index order starting at 0 and
returns the first batch obtained — with batches simultaneously ready at
priorities 0 and 1, a scan returns the priority-0 batch untouched by the
others (first conjunct), and a full `pull()` on an active pipeline does
the same (second conjunct); after an empty scan, the accumulated wait
duration is the minimum of the `Backoff(ns)` values reported across
priorities, starting from `NanoSeconds::MAX` (third conjunct). -/
theorem c6_strict_priority_pull :
    (∀ (q0 q1 : QueueState) (qs : List QueueState) (locks : Nat → Bool)
       (b0 : WBatch) (r0 : List WBatch) (b1 : WBatch) (r1 : List WBatch),
       q0.ready = b0 :: r0 → q1.ready = b1 :: r1 →
       pullScan locks 0 NanoSecondsMAX (q0 :: q1 :: qs) =
         .found b0 0 ({ q0 with ready := r0 } :: q1 :: qs)) ∧
    (∀ (p : Pipe) (locks : Nat → Bool) (evs : List ConsEv) (q0 q1 : QueueState)
       (qs : List QueueState) (b0 : WBatch) (r0 : List WBatch)
       (b1 : WBatch) (r1 : List WBatch),
       p.active = true → p.queues = q0 :: q1 :: qs →
       q0.ready = b0 :: r0 → q1.ready = b1 :: r1 →
       TransmissionPipelineConsumer.pull p locks evs =
         .ret (some (b0, 0))
           ({ resetBackoff q0 with ready := r0 } ::
             resetBackoff q1 :: qs.map resetBackoff)) ∧
    (∀ (locks : Nat → Bool) (qs : List QueueState) (bo : Nat) (qs' : List QueueState),
       pullScan locks 0 NanoSecondsMAX qs = .empty bo qs' →
       bo = (reportedBackoffs locks 0 qs).foldl min NanoSecondsMAX) := by
  have hscan : ∀ (q0 q1 : QueueState) (qs : List QueueState) (locks : Nat → Bool)
      (b0 : WBatch) (r0 : List WBatch), q0.ready = b0 :: r0 →
      pullScan locks 0 NanoSecondsMAX (q0 :: q1 :: qs) =
        .found b0 0 ({ q0 with ready := r0 } :: q1 :: qs) := by
    intro q0 q1 qs locks b0 r0 h0
    rw [pullScan]
    unfold StageOutIn.try_pull
    rw [h0]
  refine ⟨fun q0 q1 qs locks b0 r0 b1 r1 h0 _ => hscan q0 q1 qs locks b0 r0 h0,
    ?_, ?_⟩
  · intro p locks evs q0 q1 qs b0 r0 b1 r1 ha hq h0 h1
    rw [TransmissionPipelineConsumer.pull, hq]
    have h0' : (resetBackoff q0).ready = b0 :: r0 := h0
    cases evs with
    | nil =>
      rw [List.map_cons, List.map_cons, pullLoop, if_pos ha,
        hscan _ (resetBackoff q1) _ locks b0 r0 h0']
    | cons e evs' =>
      rw [List.map_cons, List.map_cons, pullLoop, if_pos ha,
        hscan _ (resetBackoff q1) _ locks b0 r0 h0']
  · intro locks qs bo qs' h
    exact pullScan_empty_bo locks qs 0 NanoSecondsMAX bo qs' h

/-- C6 witness: one ready batch at each of priorities 0 and 1 — the scan
and the pull both return the priority-0 batch; and an empty scan over two
backing-off queues (slot times 100 and 200 ns) waits the minimum reported
backoff, 100 ns. -/
theorem c6_witness :
    pullScan (fun _ => true) 0 NanoSecondsMAX
        [{ mkQueue 10 100 0 0 0 with ready := [WBatch.new 10] },
         { mkQueue 10 200 0 0 0 with ready := [WBatch.new 10] }] =
      .found (WBatch.new 10) 0
        [mkQueue 10 100 0 0 0,
         { mkQueue 10 200 0 0 0 with ready := [WBatch.new 10] }] ∧
    TransmissionPipelineConsumer.pull
        { active := true,
          queues := [{ mkQueue 10 100 0 0 0 with ready := [WBatch.new 10] },
                     { mkQueue 10 200 0 0 0 with ready := [WBatch.new 10] }] }
        (fun _ => true) [] =
      .ret (some (WBatch.new 10, 0))
        [mkQueue 10 100 0 0 0,
         { mkQueue 10 200 0 0 0 with ready := [WBatch.new 10] }] ∧
    (100 : Nat) =
      (reportedBackoffs (fun _ => true) 0
        [{ mkQueue 10 100 0 0 0 with bytesHint := 7 },
         { mkQueue 10 200 0 0 0 with bytesHint := 9 }]).foldl min NanoSecondsMAX := by
  refine ⟨?_, ?_, ?_⟩
  · exact c6_strict_priority_pull.1
      { mkQueue 10 100 0 0 0 with ready := [WBatch.new 10] }
      { mkQueue 10 200 0 0 0 with ready := [WBatch.new 10] }
      [] (fun _ => true) (WBatch.new 10) [] (WBatch.new 10) [] rfl rfl
  · exact c6_strict_priority_pull.2.1
      { active := true,
        queues := [{ mkQueue 10 100 0 0 0 with ready := [WBatch.new 10] },
                   { mkQueue 10 200 0 0 0 with ready := [WBatch.new 10] }] }
      (fun _ => true) []
      { mkQueue 10 100 0 0 0 with ready := [WBatch.new 10] }
      { mkQueue 10 200 0 0 0 with ready := [WBatch.new 10] }
      [] (WBatch.new 10) [] (WBatch.new 10) [] rfl rfl rfl rfl
  · exact c6_strict_priority_pull.2.2 (fun _ => true)
      [{ mkQueue 10 100 0 0 0 with bytesHint := 7 },
       { mkQueue 10 200 0 0 0 with bytesHint := 9 }]
      100
      [{ mkQueue 10 100 0 0 0 with bytesHint := 7, backoff := ⟨100, 100, 7, true⟩ },
       { mkQueue 10 200 0 0 0 with bytesHint := 9, backoff := ⟨200, 200, 9, true⟩ }]
      (by decide)

/-- C10: constructing the pipeline over a single-priority slice builds
exactly one queue whose pool holds `queue_size` at the *default*
priority's index (index 5, not index 0) many batches; and on a
single-queue pipeline `push_network_message` delegates to queue index 0
with the default priority, never reading the message's own QoS priority
field. -/
theorem c10_single_priority_make (conf : TransmissionPipelineConf) (r be : Nat)
    (h1 : conf.queue_size.getD PriorityDefaultIdx 0 ≠ 0)
    (h2 : conf.queue_size.getD PriorityDefaultIdx 0 ≤ RBLEN) :
    TransmissionPipeline.make conf [(r, be)] =
      some { active := true,
             queues := [mkQueue conf.mtu conf.backoff
               (conf.queue_size.getD PriorityDefaultIdx 0) r be] } ∧
    (mkQueue conf.mtu conf.backoff
      (conf.queue_size.getD PriorityDefaultIdx 0) r be).refill.length =
      conf.queue_size.getD PriorityDefaultIdx 0 ∧
    (∀ (p : Pipe) (m : Msg) (evs : List WaitEv) (q : QueueState),
      p.queues = [q] →
      TransmissionPipelineProducer.push_network_message p m evs =
        (match StageIn.push_network_message q m PriorityDefaultIdx m.is_droppable evs with
         | .ret b q' => some (.ret b (p.setQueue 0 q'))
         | .stuck q' => some (.stuck (p.setQueue 0 q')))) := by
  refine ⟨?_, ?_, ?_⟩
  · unfold TransmissionPipeline.make
    rw [if_pos (by simpa using And.intro h1 h2)]
    rfl
  · simp [mkQueue]
  · intro p m evs q hq
    unfold TransmissionPipelineProducer.push_network_message
    rw [hq]
    rfl

/-- C10 witness: with queue sizes `[1,1,1,1,1,2,1,1]` and one priority,
the single queue holds 2 batches — the size at the default index 5 —
while `queue_size[0] = 1`. -/
theorem c10_witness :
    TransmissionPipeline.make exConf [(0, 0)] =
      some { active := true, queues := [mkQueue 10 100 2 0 0] } ∧
    (mkQueue 10 100 2 0 0).refill.length = 2 ∧
    exConf.queue_size.getD 0 0 = 1 := by
  have h := c10_single_priority_make exConf 0 0 (by decide) (by decide)
  exact ⟨h.1, h.2.1, by decide⟩

/-- With a wait oracle made only of wake-ups, the acquisition loop never
fails, and a successful acquisition hands back a wake-up-only oracle. -/
theorem zgetbatch_woke (dl frag : Bool) :
    ∀ (evs : List WaitEv) (st : QueueState), (∀ e ∈ evs, e = WaitEv.woke) →
      match zgetbatch dl frag st evs with
      | .failed _ _ => False
      | .got _ _ es => ∀ e ∈ es, e = WaitEv.woke
      | .stuck _ => True := by
  intro evs
  induction evs with
  | nil =>
    intro st h
    rw [zgetbatch]
    cases hc : st.current with
    | some b => simp
    | none =>
      cases hr : st.refill with
      | cons b rest => simp
      | nil => simp
  | cons e evs' ih =>
    intro st h
    have he : e = WaitEv.woke := h e (List.mem_cons_self e evs')
    subst he
    have h' : ∀ x ∈ evs', x = WaitEv.woke := fun x hx => h x (List.mem_cons_of_mem _ hx)
    rw [zgetbatch]
    cases hc : st.current with
    | some b => exact h
    | none =>
      cases hr : st.refill with
      | cons b rest => exact h
      | nil =>
        by_cases hdl : (dl && !frag) = true
        · rw [if_pos hdl]
          exact ih st h'
        · rw [if_neg hdl]
          exact ih st h'

/-- With a wake-up-only oracle the fragmentation loop never reports a
dropped message: every fragment-acquisition blocks rather than fails, and
a failed fragment encode still ends with `true`. -/
theorem fragLoop_woke (dl isRel : Bool) (sn0 prio : Nat) :
    ∀ (fuel remaining fsn : Nat) (st : QueueState) (evs : List WaitEv),
      (∀ e ∈ evs, e = WaitEv.woke) →
      ∀ s, fragLoop dl isRel sn0 prio fuel remaining fsn st evs ≠ .ret false s := by
  intro fuel
  induction fuel with
  | zero =>
    intro remaining fsn st evs h s
    cases remaining with
    | zero => simp [fragLoop]
    | succ r => simp [fragLoop]
  | succ fuel ih =>
    intro remaining fsn st evs h s
    cases remaining with
    | zero => simp [fragLoop]
    | succ r =>
      rw [fragLoop]
      have hz := zgetbatch_woke dl true evs st h
      cases hb : zgetbatch dl true st evs with
      | stuck st' => simp
      | failed st' es =>
        rw [hb] at hz
        exact hz.elim
      | got b st' es =>
        rw [hb] at hz
        dsimp only
        cases hf : b.encode_fragment true fsn prio (r + 1) with
        | some p =>
          obtain ⟨b', k⟩ := p
          dsimp only
          exact ih (r + 1 - k) _ _ es hz s
        | none =>
          simp

/-- With a wake-up-only oracle the empty-batch retry path never reports a
dropped message. -/
theorem pushAttempt2_woke (m : Msg) (prio : Nat) (dl : Bool) (sn : Nat)
    (b : WBatch) (st : QueueState) (evs : List WaitEv)
    (h : ∀ e ∈ evs, e = WaitEv.woke) :
    ∀ s, pushAttempt2 m prio dl sn b st evs ≠ .ret false s := by
  intro s
  unfold pushAttempt2
  cases b.encode_frame m true sn prio with
  | ok b' => simp
  | error e => exact fragLoop_woke dl m.is_reliable sn prio _ _ _ _ evs h s

/-- With a wake-up-only oracle the step-4 hand-off and retry never report
a dropped message. -/
theorem pushRetry_woke (m : Msg) (prio : Nat) (dl : Bool) (sn : Nat)
    (batch : WBatch) (st : QueueState) (evs : List WaitEv)
    (h : ∀ e ∈ evs, e = WaitEv.woke) :
    ∀ s, pushRetry m prio dl sn batch st evs ≠ .ret false s := by
  intro s
  unfold pushRetry
  by_cases hemp : batch.isEmpty
  · rw [if_pos hemp]
    exact pushAttempt2_woke m prio dl sn batch st evs h s
  · rw [if_neg hemp]
    dsimp only
    have hz := zgetbatch_woke dl false evs (moveBatch batch st) h
    cases hb : zgetbatch dl false (moveBatch batch st) evs with
    | stuck s' => simp
    | failed s' es =>
      rw [hb] at hz
      exact hz.elim
    | got b2 s' es =>
      rw [hb] at hz
      dsimp only
      exact pushAttempt2_woke m prio dl sn b2 s' es hz s

/-- C2 (amended): `push_network_message` reports `false` only when a
batch acquisition fails — a refill wait that times out at the drop
deadline or a closed refill signal channel.  When every wait wakes up the
function never returns `false`, even on the path where a fragment encode
fails on an empty batch mid-series and the message is silently lost (the
counterexample shows that path returning `true`). -/
theorem c2_amended (st : QueueState) (m : Msg) (prio : Nat) (dl : Bool)
    (evs : List WaitEv) (h : ∀ e ∈ evs, e = WaitEv.woke) :
    ∀ s, StageIn.push_network_message st m prio dl evs ≠ .ret false s := by
  intro s
  unfold StageIn.push_network_message
  have hz := zgetbatch_woke dl false evs st h
  cases hb : zgetbatch dl false st evs with
  | stuck s' => simp
  | failed s' es =>
    rw [hb] at hz
    exact hz.elim
  | got batch st1 evs1 =>
    rw [hb] at hz
    dsimp only
    cases batch.encode_msg m with
    | ok b' => simp
    | error e =>
      dsimp only
      cases e with
      | NewFrame =>
        dsimp only
        cases batch.encode_frame m true (st1.snGet m.is_reliable).1 prio with
        | ok b' => simp
        | error e2 =>
          exact pushRetry_woke m prio dl _ batch _ evs1 hz s
      | DidntFit =>
        exact pushRetry_woke m prio dl _ batch _ evs1 hz s

/-- C2 amended witness: the mid-series fragmentation failure of the
counterexample scenario (whose oracle is trivially wake-up-only) does not
return `false`. -/
theorem c2_amended_witness :
    StageIn.push_network_message exQfrag exMsgFrag 0 false [] ≠
      .ret false exQfragAfter :=
  c2_amended exQfrag exMsgFrag 0 false [] (by simp) exQfragAfter

end Pipeline
